import Mathlib

/-!
Verification development for a Gibbs sampler for Bayesian simple linear
regression (one predictor).  The computational core consists of three
conditional samplers, `sample_beta_0` (intercept), `sample_beta_1` (slope)
and `sample_tau` (noise precision), together with a driver loop `gibbs`
that iterates them and records a trace of (intercept, slope, precision)
triples.

Modelling conventions:
* Real scalars are embedded as `ℚ` (exact arithmetic; floating point is
  idealized as real arithmetic, and `q / 0 = 0` in `ℚ` stands in for the
  library's non-raising division of array scalars).
* The external numeric primitives consumed by the code — `np.sqrt`,
  `np.random.normal (mean, std)` and `np.random.gamma (shape, scale)` —
  are abstracted into a `NumOps` structure; the two random primitives
  thread an explicit generator state of type `σ`, which models the global
  pseudo-random stream.  The samplers pass distribution parameters to
  these primitives exactly as the code does.
* A fatal error (a failed assert, or a library error such as a numpy
  broadcasting failure or a TypeError from calling `len` on a scalar) is
  modelled as the `none` result of an `Option`-valued function.
* One-dimensional numpy elementwise arithmetic is modelled by `npSub` and
  `npMul`, including the length-1 broadcasting rule; scalar-with-array
  arithmetic is an ordinary `map`.
-/

/-- Abstract numeric primitives used by the samplers: a square root, and
normal/gamma variate generators parameterized by (mean, std) and
(shape, scale) respectively, each threading a generator state of type `σ`. -/
structure NumOps (σ : Type) where
  sqrt : ℚ → ℚ
  normal : ℚ → ℚ → σ → ℚ × σ
  gamma : ℚ → ℚ → σ → ℚ × σ

/-- numpy elementwise subtraction of 1-D arrays, with the length-1
broadcasting rule; incompatible shapes are a fatal error (`none`). -/
def npSub (a b : List ℚ) : Option (List ℚ) :=
  if a.length = b.length then some (List.zipWith (fun u v => u - v) a b)
  else if b.length = 1 then some (a.map (fun u => u - b.headI))
  else if a.length = 1 then some (b.map (fun v => a.headI - v))
  else none

/-- numpy elementwise multiplication of 1-D arrays, with the length-1
broadcasting rule; incompatible shapes are a fatal error (`none`). -/
def npMul (a b : List ℚ) : Option (List ℚ) :=
  if a.length = b.length then some (List.zipWith (fun u v => u * v) a b)
  else if b.length = 1 then some (a.map (fun u => u * b.headI))
  else if a.length = 1 then some (b.map (fun v => a.headI * v))
  else none

/-- np.sum of a 1-D array. -/
def npSum (l : List ℚ) : ℚ := l.sum

/-- Intercept conditional sampler, from the notebook source:
```
def sample_beta_0(y, x, beta_1, tau, mu_0, tau_0):
    N = len(y)
    assert len(x) == N
    precision = tau_0 + tau * N
    mean = tau_0 * mu_0 + tau * np.sum(y - beta_1 * x)
    mean /= precision
    return np.random.normal(mean, 1 / np.sqrt(precision))
```
The failed assert is `none`; the draw and the advanced generator state are
returned on success. -/
def sample_beta_0 {σ : Type} (ops : NumOps σ) (y x : List ℚ)
    (beta_1 tau mu_0 tau_0 : ℚ) (s : σ) : Option (ℚ × σ) :=
  let N := y.length
  if x.length = N then
    match npSub y (x.map (fun xi => beta_1 * xi)) with
    | some d =>
        let precision := tau_0 + tau * (N : ℚ)
        let mean := (tau_0 * mu_0 + tau * npSum d) / precision
        some (ops.normal mean (1 / ops.sqrt precision) s)
    | none => none
  else none

/-- Slope conditional sampler, from the notebook source:
```
def sample_beta_1(y, x, beta_0, tau, mu_1, tau_1):
    N = len(y)
    assert len(x) == N
    precision = tau_1 + tau * np.sum(x * x)
    mean = tau_1 * mu_1 + tau * np.sum( (y - beta_0) * x)
    mean /= precision
    return np.random.normal(mean, 1 / np.sqrt(precision))
``` -/
def sample_beta_1 {σ : Type} (ops : NumOps σ) (y x : List ℚ)
    (beta_0 tau mu_1 tau_1 : ℚ) (s : σ) : Option (ℚ × σ) :=
  let N := y.length
  if x.length = N then
    match npMul x x, npMul (y.map (fun yi => yi - beta_0)) x with
    | some xx, some d =>
        let precision := tau_1 + tau * npSum xx
        let mean := (tau_1 * mu_1 + tau * npSum d) / precision
        some (ops.normal mean (1 / ops.sqrt precision) s)
    | _, _ => none
  else none

/-- Precision conditional sampler, from the notebook source:
```
def sample_tau(y, x, beta_0, beta_1, alpha, beta):
    N = len(y)
    alpha_new = alpha + N / 2
    resid = y - beta_0 - beta_1 * x
    beta_new = beta + np.sum(resid * resid) / 2
    return np.random.gamma(alpha_new, 1 / beta_new)
```
Note: unlike the two Gaussian samplers, this function performs no length
assertion; `y - beta_0 - beta_1 * x` is numpy elementwise arithmetic with
broadcasting, which only fails for broadcast-incompatible shapes. -/
def sample_tau {σ : Type} (ops : NumOps σ) (y x : List ℚ)
    (beta_0 beta_1 alpha beta : ℚ) (s : σ) : Option (ℚ × σ) :=
  let N := y.length
  let alpha_new := alpha + (N : ℚ) / 2
  match npSub (y.map (fun yi => yi - beta_0)) (x.map (fun xi => beta_1 * xi)) with
  | some resid =>
      match npMul resid resid with
      | some rr =>
          let beta_new := beta + npSum rr / 2
          some (ops.gamma alpha_new (1 / beta_new) s)
      | none => none
  | none => none

/-- A dynamically typed Python value as passed for the prior parameters of
the notebook variant of the intercept sampler: either a scalar or a 1-D
array. -/
inductive PyVal where
  | scalar (q : ℚ)
  | arr (l : List ℚ)
deriving DecidableEq

/-- Python `len` on a dynamically typed value: a scalar has no `len` (a
fatal TypeError, modelled as `none`). -/
def pyLen : PyVal → Option ℕ
  | PyVal.scalar _ => none
  | PyVal.arr l => some l.length

/-- The single element of a (length-1) array value; 0-ary fallback for the
scalar case, which is never reached on the success path. -/
def pyFst : PyVal → ℚ
  | PyVal.scalar q => q
  | PyVal.arr l => l.headI

/-- Intercept sampler variant from
src/gibbs/gibbs_sampling_for_linear_regression.ipynb:
```
def sample_beta_0(y, x, beta_1, tau, tau_0, mu_0):
    N = len(y)
    assert len(x) == N
    assert len(tau_0) == 1
    assert len(mu_0) == 1
    precision = tau_0 + tau * N
    mean = tau_0 * mu_0 + tau * np.sum(y - beta_1 * x)
    mean /= precision
    return np.random.normal(mean, 1 / np.sqrt(precision))
```
It takes `tau_0` before `mu_0` and requires both priors to be length-1
arrays (`len` of a scalar is a fatal TypeError); with length-1 array
priors the arithmetic broadcasts, so the returned draw is itself a
length-1 array. -/
def nb_sample_beta_0 {σ : Type} (ops : NumOps σ) (y x : List ℚ)
    (beta_1 tau : ℚ) (tau_0 mu_0 : PyVal) (s : σ) : Option (PyVal × σ) :=
  let N := y.length
  if x.length = N then
    match pyLen tau_0, pyLen mu_0 with
    | some 1, some 1 =>
        match npSub y (x.map (fun xi => beta_1 * xi)) with
        | some d =>
            let t0 := pyFst tau_0
            let m0 := pyFst mu_0
            let precision := t0 + tau * (N : ℚ)
            let mean := (t0 * m0 + tau * npSum d) / precision
            let r := ops.normal mean (1 / ops.sqrt precision) s
            some (PyVal.arr [r.1], r.2)
        | none => none
    | _, _ => none
  else none

/-- The initial parameter values supplied to the driver (the `init`
dictionary of the source, with keys beta_0, beta_1, tau). -/
structure InitState where
  beta_0 : ℚ
  beta_1 : ℚ
  tau : ℚ
deriving DecidableEq

/-- The fixed hyperparameters supplied to the driver (the `hypers`
dictionary of the source, with keys mu_0, tau_0, mu_1, tau_1, alpha,
beta). -/
structure Hypers where
  mu_0 : ℚ
  tau_0 : ℚ
  mu_1 : ℚ
  tau_1 : ℚ
  alpha : ℚ
  beta : ℚ
deriving DecidableEq

/-- The body of the driver's `for it in range(iters)` loop: per iteration,
draw the intercept from the previous slope/precision, the slope from the
new intercept and previous precision, the precision from both new values,
append the triple to the trace, and recurse on the remaining iterations. -/
def gibbsLoop {σ : Type} (ops : NumOps σ) (y x : List ℚ) (hypers : Hypers) :
    ℕ → ℚ → ℚ → ℚ → σ → Option (List (ℚ × ℚ × ℚ) × σ)
  | 0, _, _, _, s => some ([], s)
  | Nat.succ k, beta_0, beta_1, tau, s =>
      match sample_beta_0 ops y x beta_1 tau hypers.mu_0 hypers.tau_0 s with
      | none => none
      | some r0 =>
          match sample_beta_1 ops y x r0.1 tau hypers.mu_1 hypers.tau_1 r0.2 with
          | none => none
          | some r1 =>
              match sample_tau ops y x r0.1 r1.1 hypers.alpha hypers.beta r1.2 with
              | none => none
              | some r2 =>
                  match gibbsLoop ops y x hypers k r0.1 r1.1 r2.1 r2.2 with
                  | none => none
                  | some rest => some ((r0.1, r1.1, r2.1) :: rest.1, rest.2)

/-- The sampling driver, from the notebook source:
```
def gibbs(y, x, iters, init, hypers):
    assert len(y) == len(x)
    beta_0 = init["beta_0"]
    beta_1 = init["beta_1"]
    tau = init["tau"]
    trace = np.zeros((iters, 3))
    for it in range(iters):
        beta_0 = sample_beta_0(y, x, beta_1, tau, hypers["mu_0"], hypers["tau_0"])
        beta_1 = sample_beta_1(y, x, beta_0, tau, hypers["mu_1"], hypers["tau_1"])
        tau = sample_tau(y, x, beta_0, beta_1, hypers["alpha"], hypers["beta"])
        trace[it,:] = np.array((beta_0, beta_1, tau))
    return trace
```
The trace rows are modelled as a list of triples in generation order. -/
def gibbs {σ : Type} (ops : NumOps σ) (y x : List ℚ) (iters : ℕ)
    (init : InitState) (hypers : Hypers) (s : σ) :
    Option (List (ℚ × ℚ × ℚ) × σ) :=
  if y.length = x.length then
    gibbsLoop ops y x hypers iters init.beta_0 init.beta_1 init.tau s
  else none

/-- A concrete deterministic instantiation of the numeric primitives over
a `ℕ` counter state, used to evaluate the development on closed inputs. -/
def toyOps : NumOps ℕ :=
  ⟨fun q => q,
   fun m sd n => (m + sd + (n : ℚ), n + 1),
   fun a b n => (a + b + (n : ℚ), n + 1)⟩

/-- A concrete instantiation whose gamma primitive always returns the
strictly positive draw 1, matching the positivity of real Gamma variates. -/
def posOps : NumOps ℕ :=
  ⟨fun q => q,
   fun m sd n => (m + sd + (n : ℚ), n + 1),
   fun _ _ n => (1, n + 1)⟩

/-- Elementwise subtraction after a scalar multiple of the right list. -/
lemma zipWith_sub_map_right (b1 : ℚ) (y : List ℚ) : ∀ (x : List ℚ),
    List.zipWith (fun u v => u - v) y (x.map (fun xi => b1 * xi)) =
      List.zipWith (fun yi xi => yi - b1 * xi) y x := by
  induction y with
  | nil => intro x; rfl
  | cons yi ytl ih =>
      intro x
      cases x with
      | nil => rfl
      | cons xi xtl => simp only [List.map_cons, List.zipWith_cons_cons, ih]

/-- Elementwise subtraction after scalar shifts of both lists. -/
lemma zipWith_sub_map_both (b0 b1 : ℚ) (y : List ℚ) : ∀ (x : List ℚ),
    List.zipWith (fun u v => u - v)
        (y.map (fun yi => yi - b0)) (x.map (fun xi => b1 * xi)) =
      List.zipWith (fun yi xi => yi - b0 - b1 * xi) y x := by
  induction y with
  | nil => intro x; rfl
  | cons yi ytl ih =>
      intro x
      cases x with
      | nil => rfl
      | cons xi xtl => simp only [List.map_cons, List.zipWith_cons_cons, ih]

/-- Elementwise product after a scalar shift of the left list. -/
lemma zipWith_mul_map_left (b0 : ℚ) (y : List ℚ) : ∀ (x : List ℚ),
    List.zipWith (fun u v => u * v) (y.map (fun yi => yi - b0)) x =
      List.zipWith (fun yi xi => (yi - b0) * xi) y x := by
  induction y with
  | nil => intro x; rfl
  | cons yi ytl ih =>
      intro x
      cases x with
      | nil => rfl
      | cons xi xtl => simp only [List.map_cons, List.zipWith_cons_cons, ih]

/-- Elementwise product of a list with itself is the map of squares. -/
lemma zipWith_mul_self : ∀ (l : List ℚ),
    List.zipWith (fun u v => u * v) l l = l.map (fun r => r * r) := by
  intro l
  induction l with
  | nil => rfl
  | cons a tl ih => simp only [List.zipWith_cons_cons, List.map_cons, ih]

/-- On equal-length arrays, `npSub` is plain elementwise subtraction. -/
lemma npSub_of_length_eq {a b : List ℚ} (h : a.length = b.length) :
    npSub a b = some (List.zipWith (fun u v => u - v) a b) := by
  unfold npSub
  rw [if_pos h]

/-- On equal-length arrays, `npMul` is plain elementwise multiplication. -/
lemma npMul_of_length_eq {a b : List ℚ} (h : a.length = b.length) :
    npMul a b = some (List.zipWith (fun u v => u * v) a b) := by
  unfold npMul
  rw [if_pos h]

/-- `npMul` of a list with itself is the map of squares. -/
lemma npMul_self (l : List ℚ) :
    npMul l l = some (l.map (fun r => r * r)) := by
  rw [npMul_of_length_eq rfl, zipWith_mul_self]

/-- `npSub` against a length-1 array broadcasts its single element. -/
lemma npSub_broadcast {a b : List ℚ} (h1 : a.length ≠ b.length)
    (h2 : b.length = 1) :
    npSub a b = some (a.map (fun u => u - b.headI)) := by
  unfold npSub
  rw [if_neg h1, if_pos h2]

/-- Reduction of the intercept sampler on equal-length observations: it
passes the posterior mean and the reciprocal square root of the posterior
precision to the normal primitive. -/
lemma sample_beta_0_reduce {σ : Type} (ops : NumOps σ) (y x : List ℚ)
    (b1 tau mu0 tau0 : ℚ) (s : σ) (hlen : x.length = y.length) :
    sample_beta_0 ops y x b1 tau mu0 tau0 s =
      some (ops.normal
        ((tau0 * mu0 + tau * (List.zipWith (fun yi xi => yi - b1 * xi) y x).sum)
          / (tau0 + tau * (y.length : ℚ)))
        (1 / ops.sqrt (tau0 + tau * (y.length : ℚ))) s) := by
  unfold sample_beta_0
  have hmap : y.length = (x.map (fun xi => b1 * xi)).length := by
    simp [hlen]
  rw [if_pos hlen, npSub_of_length_eq hmap, zipWith_sub_map_right]
  rfl

/-- Reduction of the slope sampler on equal-length observations. -/
lemma sample_beta_1_reduce {σ : Type} (ops : NumOps σ) (y x : List ℚ)
    (b0 tau mu1 tau1 : ℚ) (s : σ) (hlen : x.length = y.length) :
    sample_beta_1 ops y x b0 tau mu1 tau1 s =
      some (ops.normal
        ((tau1 * mu1 + tau * (List.zipWith (fun yi xi => (yi - b0) * xi) y x).sum)
          / (tau1 + tau * (x.map (fun xi => xi * xi)).sum))
        (1 / ops.sqrt (tau1 + tau * (x.map (fun xi => xi * xi)).sum)) s) := by
  unfold sample_beta_1
  have hxx : x.length = x.length := rfl
  have hd : (y.map (fun yi => yi - b0)).length = x.length := by
    simp [hlen]
  rw [if_pos hlen, npMul_of_length_eq hxx, npMul_of_length_eq hd,
    zipWith_mul_self, zipWith_mul_map_left]
  rfl

/-- Reduction of the precision sampler on equal-length observations: it
passes shape `alpha + N/2` and scale `1 / (beta + RSS/2)` to the gamma
primitive, where RSS is the residual sum of squares. -/
lemma sample_tau_reduce {σ : Type} (ops : NumOps σ) (y x : List ℚ)
    (b0 b1 alpha beta : ℚ) (s : σ) (hlen : x.length = y.length) :
    sample_tau ops y x b0 b1 alpha beta s =
      some (ops.gamma (alpha + (y.length : ℚ) / 2)
        (1 / (beta +
          ((List.zipWith (fun yi xi => yi - b0 - b1 * xi) y x).map
            (fun r => r * r)).sum / 2)) s) := by
  unfold sample_tau
  have hmap : (y.map (fun yi => yi - b0)).length =
      (x.map (fun xi => b1 * xi)).length := by
    simp [hlen]
  rw [npSub_of_length_eq hmap, zipWith_sub_map_both]
  simp only [npMul_self, npSum]

/-- On equal-length observations the loop always succeeds, produces exactly
as many trace rows as requested, and every precision component of the
trace is an output of the gamma primitive. -/
lemma gibbsLoop_spec {σ : Type} (ops : NumOps σ) (y x : List ℚ)
    (hypers : Hypers) (hlen : x.length = y.length) :
    ∀ (k : ℕ) (b0 b1 t : ℚ) (s : σ), ∃ tr s2,
      gibbsLoop ops y x hypers k b0 b1 t s = some (tr, s2) ∧ tr.length = k ∧
      ∀ p ∈ tr, ∃ (a b : ℚ) (st : σ), p.2.2 = (ops.gamma a b st).1 := by
  intro k
  induction k with
  | zero =>
      intro b0 b1 t s
      refine ⟨[], s, rfl, rfl, ?_⟩
      intro p hp
      cases hp
  | succ k ih =>
      intro b0 b1 t s
      rcases hr0eq : sample_beta_0 ops y x b1 t hypers.mu_0 hypers.tau_0 s
        with _ | r0
      · rw [sample_beta_0_reduce ops y x b1 t hypers.mu_0 hypers.tau_0 s hlen]
          at hr0eq
        cases hr0eq
      rcases hr1eq : sample_beta_1 ops y x r0.1 t hypers.mu_1 hypers.tau_1 r0.2
        with _ | r1
      · rw [sample_beta_1_reduce ops y x r0.1 t hypers.mu_1 hypers.tau_1 r0.2 hlen]
          at hr1eq
        cases hr1eq
      rcases hr2eq : sample_tau ops y x r0.1 r1.1 hypers.alpha hypers.beta r1.2
        with _ | r2
      · rw [sample_tau_reduce ops y x r0.1 r1.1 hypers.alpha hypers.beta r1.2 hlen]
          at hr2eq
        cases hr2eq
      have h2 := sample_tau_reduce ops y x r0.1 r1.1 hypers.alpha hypers.beta r1.2 hlen
      rw [hr2eq] at h2
      have hr2 := Option.some.inj h2
      obtain ⟨tr, s2, htr, hl, htau⟩ := ih r0.1 r1.1 r2.1 r2.2
      refine ⟨(r0.1, r1.1, r2.1) :: tr, s2, ?_, ?_, ?_⟩
      · simp only [gibbsLoop, hr0eq, hr1eq, hr2eq, htr]
      · simp [hl]
      · intro p hp
        rcases List.mem_cons.mp hp with hp | hp
        · subst hp
          exact ⟨_, _, _, congrArg Prod.fst hr2⟩
        · exact htau p hp

/-- On equal-length observations the driver's length assertion passes and
the driver is the loop started from the initial state. -/
lemma gibbs_of_length_eq {σ : Type} (ops : NumOps σ) (y x : List ℚ)
    (hypers : Hypers) (hlen : y.length = x.length) (iters : ℕ)
    (init : InitState) (s : σ) :
    gibbs ops y x iters init hypers s =
      gibbsLoop ops y x hypers iters init.beta_0 init.beta_1 init.tau s := by
  unfold gibbs
  rw [if_pos hlen]

/-- C1: For every observation set of equal-length arrays with N ≥ 1 and
every alpha, beta, `sample_tau` computes posterior shape alpha + N/2 and
posterior rate beta + (residual sum of squares)/2, and passes
scale = 1 / posterior_rate (not posterior_rate itself) to the shape/scale
gamma primitive, so the returned draw is distributed
Gamma(shape = posterior shape, rate = posterior rate). -/
theorem sample_tau_posterior {σ : Type} (ops : NumOps σ) (y x : List ℚ)
    (b0 b1 alpha beta : ℚ) (s : σ)
    (hlen : x.length = y.length) (_hN : 1 ≤ y.length) :
    sample_tau ops y x b0 b1 alpha beta s =
      some (ops.gamma (alpha + (y.length : ℚ) / 2)
        (1 / (beta +
          ((List.zipWith (fun yi xi => yi - b0 - b1 * xi) y x).map
            (fun r => r * r)).sum / 2)) s) :=
  sample_tau_reduce ops y x b0 b1 alpha beta s hlen

/-- Witness for C1 at a concrete input. -/
theorem sample_tau_posterior_witness :
    (([(0 : ℚ), 1] : List ℚ).length = ([(1 : ℚ), 2] : List ℚ).length ∧
      1 ≤ ([(1 : ℚ), 2] : List ℚ).length) ∧
    sample_tau toyOps [(1 : ℚ), 2] [(0 : ℚ), 1] 0 1 2 1 0 =
      some (toyOps.gamma ((2 : ℚ) + (([(1 : ℚ), 2] : List ℚ).length : ℚ) / 2)
        (1 / ((1 : ℚ) +
          ((List.zipWith (fun yi xi => yi - 0 - 1 * xi)
            ([(1 : ℚ), 2] : List ℚ) [(0 : ℚ), 1]).map
            (fun r => r * r)).sum / 2)) 0) :=
  ⟨⟨by decide, by decide⟩,
    sample_tau_posterior toyOps [1, 2] [0, 1] 0 1 2 1 0 (by decide) (by decide)⟩

/-- C4: For every non-empty observation set of equal length N, current
slope and precision and prior (mu_0, tau_0), `sample_beta_0` draws from a
Normal with posterior precision tau_0 + precision*N, posterior mean
(tau_0*mu_0 + precision * Σ (y_i - slope*x_i)) / posterior precision and
standard deviation 1/sqrt(posterior precision); with one observation
(x=0, y=0), prior precision 1, prior mean 0, precision 1 and slope 0, the
posterior precision is 2 and the posterior mean is 0. -/
theorem sample_beta_0_posterior {σ : Type} (ops : NumOps σ) (y x : List ℚ)
    (b1 tau mu0 tau0 : ℚ) (s : σ)
    (hlen : x.length = y.length) (_hN : 1 ≤ y.length) :
    sample_beta_0 ops y x b1 tau mu0 tau0 s =
      some (ops.normal
        ((tau0 * mu0 + tau * (List.zipWith (fun yi xi => yi - b1 * xi) y x).sum)
          / (tau0 + tau * (y.length : ℚ)))
        (1 / ops.sqrt (tau0 + tau * (y.length : ℚ))) s) ∧
    (1 : ℚ) + 1 * (([(0 : ℚ)] : List ℚ).length : ℚ) = 2 ∧
    ((1 : ℚ) * 0 +
        1 * (List.zipWith (fun yi xi => yi - 0 * xi)
          ([(0 : ℚ)] : List ℚ) [(0 : ℚ)]).sum)
      / ((1 : ℚ) + 1 * (([(0 : ℚ)] : List ℚ).length : ℚ)) = 0 :=
  ⟨sample_beta_0_reduce ops y x b1 tau mu0 tau0 s hlen, by norm_num,
    by norm_num [List.zipWith]⟩

/-- Witness for C4 at a concrete input. -/
theorem sample_beta_0_posterior_witness :
    (([(0 : ℚ)] : List ℚ).length = ([(0 : ℚ)] : List ℚ).length ∧
      1 ≤ ([(0 : ℚ)] : List ℚ).length) ∧
    (sample_beta_0 toyOps [(0 : ℚ)] [(0 : ℚ)] 0 1 0 1 0 =
      some (toyOps.normal
        (((1 : ℚ) * 0 + 1 * (List.zipWith (fun yi xi => yi - 0 * xi)
            ([(0 : ℚ)] : List ℚ) [(0 : ℚ)]).sum)
          / ((1 : ℚ) + 1 * (([(0 : ℚ)] : List ℚ).length : ℚ)))
        (1 / toyOps.sqrt ((1 : ℚ) + 1 * (([(0 : ℚ)] : List ℚ).length : ℚ))) 0) ∧
      (1 : ℚ) + 1 * (([(0 : ℚ)] : List ℚ).length : ℚ) = 2 ∧
      ((1 : ℚ) * 0 +
          1 * (List.zipWith (fun yi xi => yi - 0 * xi)
            ([(0 : ℚ)] : List ℚ) [(0 : ℚ)]).sum)
        / ((1 : ℚ) + 1 * (([(0 : ℚ)] : List ℚ).length : ℚ)) = 0) :=
  ⟨⟨by decide, by decide⟩,
    sample_beta_0_posterior toyOps [0] [0] 0 1 0 1 0 (by decide) (by decide)⟩

/-- C5: For every non-empty observation set of equal length, current
intercept and precision and prior (mu_1, tau_1), `sample_beta_1` draws
from a Normal with posterior precision tau_1 + precision * Σ x_i^2,
posterior mean (tau_1*mu_1 + precision * Σ (y_i - intercept)*x_i) /
posterior precision and standard deviation 1/sqrt(posterior precision). -/
theorem sample_beta_1_posterior {σ : Type} (ops : NumOps σ) (y x : List ℚ)
    (b0 tau mu1 tau1 : ℚ) (s : σ)
    (hlen : x.length = y.length) (_hN : 1 ≤ y.length) :
    sample_beta_1 ops y x b0 tau mu1 tau1 s =
      some (ops.normal
        ((tau1 * mu1 + tau * (List.zipWith (fun yi xi => (yi - b0) * xi) y x).sum)
          / (tau1 + tau * (x.map (fun xi => xi * xi)).sum))
        (1 / ops.sqrt (tau1 + tau * (x.map (fun xi => xi * xi)).sum)) s) :=
  sample_beta_1_reduce ops y x b0 tau mu1 tau1 s hlen

/-- Witness for C5 at a concrete input. -/
theorem sample_beta_1_posterior_witness :
    (([(2 : ℚ), 3] : List ℚ).length = ([(1 : ℚ), 1] : List ℚ).length ∧
      1 ≤ ([(1 : ℚ), 1] : List ℚ).length) ∧
    sample_beta_1 toyOps [(1 : ℚ), 1] [(2 : ℚ), 3] 1 1 0 1 0 =
      some (toyOps.normal
        (((1 : ℚ) * 0 + 1 * (List.zipWith (fun yi xi => (yi - 1) * xi)
            ([(1 : ℚ), 1] : List ℚ) [(2 : ℚ), 3]).sum)
          / ((1 : ℚ) + 1 * (([(2 : ℚ), 3] : List ℚ).map (fun xi => xi * xi)).sum))
        (1 / toyOps.sqrt
          ((1 : ℚ) + 1 * (([(2 : ℚ), 3] : List ℚ).map (fun xi => xi * xi)).sum)) 0) :=
  ⟨⟨by decide, by decide⟩,
    sample_beta_1_posterior toyOps [1, 1] [2, 3] 1 1 0 1 0 (by decide) (by decide)⟩

/-- C2: For every valid input (equal-length observation arrays), the
driver `gibbs` performs exactly K iterations and returns the trace in
generation order with length exactly K; and each iteration first draws
the intercept using the previous slope and previous precision, then the
slope using the just-drawn intercept and previous precision, then the
precision using both just-drawn values, then appends the triple to the
trace — as exhibited by the one-step unfolding of the driver. -/
theorem gibbs_iteration_order {σ : Type} (ops : NumOps σ) (y x : List ℚ)
    (hypers : Hypers) (K : ℕ) (init : InitState) (s : σ)
    (hlen : y.length = x.length) :
    (∃ tr s2, gibbs ops y x K init hypers s = some (tr, s2) ∧ tr.length = K) ∧
    gibbs ops y x (K + 1) init hypers s =
      (sample_beta_0 ops y x init.beta_1 init.tau hypers.mu_0 hypers.tau_0 s).bind
        (fun r0 =>
          (sample_beta_1 ops y x r0.1 init.tau hypers.mu_1 hypers.tau_1 r0.2).bind
            (fun r1 =>
              (sample_tau ops y x r0.1 r1.1 hypers.alpha hypers.beta r1.2).bind
                (fun r2 =>
                  (gibbs ops y x K ⟨r0.1, r1.1, r2.1⟩ hypers r2.2).map
                    (fun rest => ((r0.1, r1.1, r2.1) :: rest.1, rest.2))))) := by
  constructor
  · obtain ⟨tr, s2, h, hl, _⟩ :=
      gibbsLoop_spec ops y x hypers hlen.symm K init.beta_0 init.beta_1 init.tau s
    exact ⟨tr, s2, by rw [gibbs_of_length_eq ops y x hypers hlen]; exact h, hl⟩
  · simp only [gibbs_of_length_eq ops y x hypers hlen]
    rcases h0 : sample_beta_0 ops y x init.beta_1 init.tau hypers.mu_0 hypers.tau_0 s
      with _ | r0
    · simp [gibbsLoop, h0]
    rcases h1 : sample_beta_1 ops y x r0.1 init.tau hypers.mu_1 hypers.tau_1 r0.2
      with _ | r1
    · simp [gibbsLoop, h0, h1]
    rcases h2 : sample_tau ops y x r0.1 r1.1 hypers.alpha hypers.beta r1.2
      with _ | r2
    · simp [gibbsLoop, h0, h1, h2]
    rcases h3 : gibbsLoop ops y x hypers K r0.1 r1.1 r2.1 r2.2 with _ | rest
    · simp [gibbsLoop, h0, h1, h2, h3]
    · simp [gibbsLoop, h0, h1, h2, h3]

/-- Witness for C2 at a concrete input. -/
theorem gibbs_iteration_order_witness :
    ([(0 : ℚ)] : List ℚ).length = ([(0 : ℚ)] : List ℚ).length ∧
    (∃ tr s2, gibbs toyOps [(0 : ℚ)] [(0 : ℚ)] 1 ⟨0, 0, 0⟩ ⟨0, 0, 0, 0, 2, 1⟩ 0 =
      some (tr, s2) ∧ tr.length = 1) :=
  ⟨rfl,
    (gibbs_iteration_order toyOps [0] [0] ⟨0, 0, 0, 0, 2, 1⟩ 1 ⟨0, 0, 0⟩ 0 rfl).1⟩

/-- C3 (amended): on unequal-length observation arrays, `sample_beta_0`
and `sample_beta_1` fail fast through their length assertion, but
`sample_tau` performs no length check: when x has length 1 and y at least
2, numpy broadcasting applies and a draw is returned instead of a
failure. -/
theorem length_mismatch_behavior {σ : Type} (ops : NumOps σ) (y x : List ℚ)
    (c1 c2 c3 c4 : ℚ) (s : σ) :
    (x.length ≠ y.length → sample_beta_0 ops y x c1 c2 c3 c4 s = none) ∧
    (x.length ≠ y.length → sample_beta_1 ops y x c1 c2 c3 c4 s = none) ∧
    (x.length = 1 → 2 ≤ y.length →
      (sample_tau ops y x c1 c2 c3 c4 s).isSome = true) := by
  refine ⟨?_, ?_, ?_⟩
  · intro h
    unfold sample_beta_0
    rw [if_neg h]
  · intro h
    unfold sample_beta_1
    rw [if_neg h]
  · intro hx hy
    have hne : (y.map (fun yi => yi - c1)).length ≠
        (x.map (fun xi => c2 * xi)).length := by
      simp only [List.length_map, hx]
      omega
    have hb : (x.map (fun xi => c2 * xi)).length = 1 := by
      simp [hx]
    simp [sample_tau, npSub_broadcast hne hb, npMul_self]

/-- Counterexample for C3 as stated: the arrays `[0, 0]` and `[0]` have
unequal lengths, yet `sample_tau` returns a draw rather than failing with
a contract violation. -/
theorem length_mismatch_counterexample :
    ([(0 : ℚ)] : List ℚ).length ≠ ([(0 : ℚ), 0] : List ℚ).length ∧
    (sample_tau toyOps [(0 : ℚ), 0] [(0 : ℚ)] 0 0 2 1 0).isSome = true :=
  ⟨by decide, by decide⟩

/-- Witness for the amended C3 at concrete inputs. -/
theorem length_mismatch_behavior_witness :
    sample_beta_0 toyOps [(0 : ℚ), 0] [(0 : ℚ)] 1 1 1 1 0 = none ∧
    sample_beta_1 toyOps [(0 : ℚ), 0] [(0 : ℚ)] 1 1 1 1 0 = none ∧
    (sample_tau toyOps [(0 : ℚ), 0] [(0 : ℚ)] 1 1 1 1 0).isSome = true :=
  ⟨(length_mismatch_behavior toyOps [0, 0] [0] 1 1 1 1 0).1 (by decide),
   (length_mismatch_behavior toyOps [0, 0] [0] 1 1 1 1 0).2.1 (by decide),
   (length_mismatch_behavior toyOps [0, 0] [0] 1 1 1 1 0).2.2 (by decide) (by decide)⟩

/-- C6: For valid inputs (equal-length observations with N ≥ 1, positive
alpha and beta), if the gamma primitive only produces strictly positive
draws — the Gamma-draw property of the underlying generator — then every
precision value (third component) of every row of the trace returned by
`gibbs` is strictly positive. -/
theorem gibbs_trace_tau_pos {σ : Type} (ops : NumOps σ)
    (hg : ∀ (a b : ℚ) (st : σ), 0 < (ops.gamma a b st).1)
    (y x : List ℚ) (iters : ℕ) (init : InitState) (hypers : Hypers) (s : σ)
    (hlen : y.length = x.length) (_hN : 1 ≤ y.length)
    (_ha : 0 < hypers.alpha) (_hb : 0 < hypers.beta)
    (tr : List (ℚ × ℚ × ℚ)) (s2 : σ)
    (h : gibbs ops y x iters init hypers s = some (tr, s2)) :
    ∀ p ∈ tr, 0 < p.2.2 := by
  obtain ⟨tr2, s3, h2, _, htau⟩ :=
    gibbsLoop_spec ops y x hypers hlen.symm iters init.beta_0 init.beta_1 init.tau s
  rw [gibbs_of_length_eq ops y x hypers hlen, h2] at h
  have htr : tr2 = tr := congrArg Prod.fst (Option.some.inj h)
  subst htr
  intro p hp
  obtain ⟨a, b, st, hpe⟩ := htau p hp
  rw [hpe]
  exact hg a b st

/-- Witness for C6 at a concrete one-iteration run. -/
theorem gibbs_trace_tau_pos_witness :
    gibbs posOps [(0 : ℚ)] [(0 : ℚ)] 1 ⟨0, 0, 0⟩ ⟨0, 0, 0, 0, 1, 1⟩ 0 =
      some ([((0 : ℚ), (1 : ℚ), (1 : ℚ))], 3) ∧
    ∀ p ∈ [((0 : ℚ), (1 : ℚ), (1 : ℚ))], 0 < p.2.2 :=
  ⟨by norm_num [gibbs, gibbsLoop, sample_beta_0, sample_beta_1, sample_tau,
      npSub, npMul, npSum, posOps, List.zipWith],
    gibbs_trace_tau_pos posOps (fun a b st => one_pos) [0] [0] 1 ⟨0, 0, 0⟩
      ⟨0, 0, 0, 0, 1, 1⟩ 0 rfl (by decide) (by norm_num) (by norm_num)
      [((0 : ℚ), 1, 1)] 3
      (by norm_num [gibbs, gibbsLoop, sample_beta_0, sample_beta_1, sample_tau,
        npSub, npMul, npSum, posOps, List.zipWith])⟩

/-- C7 (amended): the samplers perform no validation of the positivity of
the prior precision (or of alpha/beta): with a non-positive prior
precision and equal-length observations, `sample_beta_0` (for tau_0) and
`sample_beta_1` (for tau_1) still proceed and return a draw instead of
signaling an invalid-parameter error. -/
theorem no_param_validation {σ : Type} (ops : NumOps σ) (y x : List ℚ)
    (c tau mu p0 : ℚ) (s : σ) (hlen : x.length = y.length) (_hp : p0 ≤ 0) :
    (sample_beta_0 ops y x c tau mu p0 s).isSome = true ∧
    (sample_beta_1 ops y x c tau mu p0 s).isSome = true := by
  constructor
  · rw [sample_beta_0_reduce ops y x c tau mu p0 s hlen]
    rfl
  · rw [sample_beta_1_reduce ops y x c tau mu p0 s hlen]
    rfl

/-- Counterexample for C7 as stated: tau_0 = 0 is non-positive, yet
`sample_beta_0` proceeds and produces a draw, with no invalid-parameter
error. -/
theorem no_param_validation_counterexample :
    (0 : ℚ) ≤ 0 ∧
    (sample_beta_0 toyOps [(0 : ℚ)] [(0 : ℚ)] 0 1 0 0 0).isSome = true :=
  ⟨le_refl 0, by decide⟩

/-- Witness for the amended C7 at a concrete input. -/
theorem no_param_validation_witness :
    (sample_beta_0 toyOps [(0 : ℚ)] [(0 : ℚ)] 0 1 0 (-1) 0).isSome = true ∧
    (sample_beta_1 toyOps [(0 : ℚ)] [(0 : ℚ)] 0 1 0 (-1) 0).isSome = true :=
  no_param_validation toyOps [0] [0] 0 1 0 (-1) 0 rfl (by norm_num)

/-- C8 (amended): the notebook variant of the intercept sampler asserts
len(tau_0) == 1 and len(mu_0) == 1, so with the scalar prior arguments the
spec's API declares it fails with a fatal TypeError and returns no draw,
while the part_000 version accepts the same scalars and returns a draw;
the two versions therefore do not return the same draw on scalar
priors. -/
theorem nb_sample_beta_0_rejects_scalars {σ : Type} (ops : NumOps σ)
    (y x : List ℚ) (b1 tau t0 m0 : ℚ) (s : σ) (hlen : x.length = y.length) :
    nb_sample_beta_0 ops y x b1 tau (PyVal.scalar t0) (PyVal.scalar m0) s = none ∧
    (sample_beta_0 ops y x b1 tau m0 t0 s).isSome = true := by
  constructor
  · unfold nb_sample_beta_0
    rw [if_pos hlen]
    rfl
  · rw [sample_beta_0_reduce ops y x b1 tau m0 t0 s hlen]
    rfl

/-- Counterexample for C8 as stated: on scalar prior mean 0 and prior
precision 1, the notebook variant fails (no draw) while the part_000
variant returns a draw — they do not return the same draw. -/
theorem nb_scalar_prior_counterexample :
    nb_sample_beta_0 toyOps [(0 : ℚ)] [(0 : ℚ)] 0 1
      (PyVal.scalar 1) (PyVal.scalar 0) 0 = none ∧
    (sample_beta_0 toyOps [(0 : ℚ)] [(0 : ℚ)] 0 1 0 1 0).isSome = true :=
  ⟨rfl, by decide⟩

/-- Witness for the amended C8 at a concrete input. -/
theorem nb_sample_beta_0_rejects_scalars_witness :
    nb_sample_beta_0 toyOps [(1 : ℚ)] [(1 : ℚ)] 0 1
      (PyVal.scalar 2) (PyVal.scalar 3) 0 = none ∧
    (sample_beta_0 toyOps [(1 : ℚ)] [(1 : ℚ)] 0 1 3 2 0).isSome = true :=
  nb_sample_beta_0_rejects_scalars toyOps [1] [1] 0 1 2 3 0 rfl

/-- C9: reproducibility — the samplers and the driver are deterministic
functions of their full parameter list plus the random-source state: two
runs on equal inputs and equal generator state produce identical
outputs. -/
theorem deterministic_given_state {σ : Type} (ops ops2 : NumOps σ)
    (y y2 x x2 : List ℚ) (a a2 b b2 c c2 d d2 : ℚ) (K K2 : ℕ)
    (init init2 : InitState) (hyp hyp2 : Hypers) (s s2 : σ)
    (h1 : ops = ops2) (h2 : y = y2) (h3 : x = x2) (h4 : a = a2) (h5 : b = b2)
    (h6 : c = c2) (h7 : d = d2) (h8 : K = K2) (h9 : init = init2)
    (h10 : hyp = hyp2) (h11 : s = s2) :
    sample_beta_0 ops y x a b c d s = sample_beta_0 ops2 y2 x2 a2 b2 c2 d2 s2 ∧
    sample_beta_1 ops y x a b c d s = sample_beta_1 ops2 y2 x2 a2 b2 c2 d2 s2 ∧
    gibbs ops y x K init hyp s = gibbs ops2 y2 x2 K2 init2 hyp2 s2 := by
  subst_vars
  exact ⟨rfl, rfl, rfl⟩

/-- Witness for C9 at a concrete input. -/
theorem deterministic_given_state_witness :
    sample_beta_0 toyOps [(0 : ℚ)] [(0 : ℚ)] 0 0 0 0 0 =
      sample_beta_0 toyOps [(0 : ℚ)] [(0 : ℚ)] 0 0 0 0 0 ∧
    sample_beta_1 toyOps [(0 : ℚ)] [(0 : ℚ)] 0 0 0 0 0 =
      sample_beta_1 toyOps [(0 : ℚ)] [(0 : ℚ)] 0 0 0 0 0 ∧
    gibbs toyOps [(0 : ℚ)] [(0 : ℚ)] 1 ⟨0, 0, 0⟩ ⟨0, 0, 0, 0, 2, 1⟩ 0 =
      gibbs toyOps [(0 : ℚ)] [(0 : ℚ)] 1 ⟨0, 0, 0⟩ ⟨0, 0, 0, 0, 2, 1⟩ 0 :=
  deterministic_given_state toyOps toyOps [0] [0] [0] [0] 0 0 0 0 0 0 0 0 1 1
    ⟨0, 0, 0⟩ ⟨0, 0, 0⟩ ⟨0, 0, 0, 0, 2, 1⟩ ⟨0, 0, 0, 0, 2, 1⟩ 0 0
    rfl rfl rfl rfl rfl rfl rfl rfl rfl rfl rfl

/-- C10: when `gibbs` is called with an iteration count of 0 and
equal-length observation arrays, it raises no error and returns an empty
trace of length 0. -/
theorem gibbs_zero_iters {σ : Type} (ops : NumOps σ) (y x : List ℚ)
    (init : InitState) (hypers : Hypers) (s : σ)
    (hlen : y.length = x.length) :
    gibbs ops y x 0 init hypers s = some ([], s) := by
  rw [gibbs_of_length_eq ops y x hypers hlen]
  rfl

/-- Witness for C10 at a concrete input. -/
theorem gibbs_zero_iters_witness :
    gibbs toyOps [(0 : ℚ), 1] [(2 : ℚ), 3] 0 ⟨0, 0, 2⟩ ⟨0, 1, 0, 1, 2, 1⟩ 5 =
      some ([], 5) :=
  gibbs_zero_iters toyOps [0, 1] [2, 3] ⟨0, 0, 2⟩ ⟨0, 1, 0, 1, 2, 1⟩ 5 rfl
